import Mathlib

/-!
# Verification of the MAST Kepler notebook repository

The repository consists of four Jupyter notebooks, each a straight-line
Python script that calls external astronomy libraries (astropy, astroquery,
lightkurve, numpy, matplotlib).  We give a shallow embedding of the Python
subset the notebooks use: an abstract syntax tree for expressions and
statements, a transcription of every code cell of every notebook, a fueled
interpreter in which the behaviour of every external-library operation is an
oracle, and decidable syntactic analyses (plot-call counting, presence of
try/except, loops, definitions, concurrency primitives, filesystem writes,
nondeterministic calls, aperture-mask provenance).
-/

namespace MastNB

/- Expressions of the Python subset used by the notebooks.  `Exprs` and
`Kwargs` are mutually defined lists of positional and keyword arguments. -/
mutual

inductive Expr where
  | name : String → Expr
  | str : String → Expr
  | intL : Int → Expr
  | ratL : Int → Nat → Expr
  | boolL : Bool → Expr
  | attr : Expr → String → Expr
  | call : Expr → Exprs → Kwargs → Expr
  | sub : Expr → Expr → Expr
  | inv : Expr → Expr
  | tup : Exprs → Expr
  | sliceFull : Expr
  | sliceFrom : Expr → Expr
  | sliceTo : Expr → Expr
  | sliceBoth : Expr → Expr → Expr
  | awaitE : Expr → Expr

inductive Exprs where
  | nil : Exprs
  | cons : Expr → Exprs → Exprs

inductive Kwargs where
  | nil : Kwargs
  | cons : String → Expr → Kwargs → Kwargs

end

/- Statements of the Python subset.  The notebooks use only the first seven
constructors; `tryS`, `forS`, `whileS`, `ifS`, `defS` and `classS` are in the
syntax so that their absence from the notebooks is a non-vacuous statement. -/
mutual

inductive Stmt where
  | imp : String → String → Stmt
  | magic : String → Stmt
  | assign : String → Expr → Stmt
  | assignTup : List String → Expr → Stmt
  | setItem : String → Expr → Expr → Stmt
  | exprS : Expr → Stmt
  | withS : Expr → String → Stmts → Stmt
  | tryS : Stmts → Stmts → Stmt
  | forS : String → Expr → Stmts → Stmt
  | whileS : Expr → Stmts → Stmt
  | ifS : Expr → Stmts → Stmts → Stmt
  | defS : String → List String → Stmts → Stmt
  | classS : String → Stmts → Stmt

inductive Stmts where
  | nil : Stmts
  | cons : Stmt → Stmts → Stmts

end

def Exprs.ofList : List Expr → Exprs
  | [] => .nil
  | e :: es => .cons e (Exprs.ofList es)

def Kwargs.ofList : List (String × Expr) → Kwargs
  | [] => .nil
  | (k, e) :: ks => .cons k e (Kwargs.ofList ks)

def Stmts.ofList : List Stmt → Stmts
  | [] => .nil
  | s :: ss => .cons s (Stmts.ofList ss)

def Stmts.append : Stmts → Stmts → Stmts
  | .nil, t => t
  | .cons s ss, t => .cons s (ss.append t)

/-- A notebook is its sequence of code cells, each a sequence of statements. -/
def Notebook := List Stmts

def Notebook.stmts : Notebook → Stmts
  | [] => .nil
  | c :: cs => c.append (Notebook.stmts cs)

/-! ## Syntactic traversals -/

/- Does some subexpression satisfy `p`? -/
mutual

def Expr.anyE (p : Expr → Bool) : Expr → Bool
  | .attr e f => p (.attr e f) || e.anyE p
  | .call f as ks => p (.call f as ks) || f.anyE p || as.anyE p || ks.anyE p
  | .sub e i => p (.sub e i) || e.anyE p || i.anyE p
  | .inv e => p (.inv e) || e.anyE p
  | .tup es => p (.tup es) || es.anyE p
  | .sliceFrom e => p (.sliceFrom e) || e.anyE p
  | .sliceTo e => p (.sliceTo e) || e.anyE p
  | .sliceBoth a b => p (.sliceBoth a b) || a.anyE p || b.anyE p
  | .awaitE e => p (.awaitE e) || e.anyE p
  | e => p e

def Exprs.anyE (p : Expr → Bool) : Exprs → Bool
  | .nil => false
  | .cons e es => e.anyE p || es.anyE p

def Kwargs.anyE (p : Expr → Bool) : Kwargs → Bool
  | .nil => false
  | .cons _ e ks => e.anyE p || ks.anyE p

end

/- Does some statement (recursively, including bodies) satisfy `p`? -/
mutual

def Stmt.anyS (p : Stmt → Bool) : Stmt → Bool
  | .withS c x b => p (.withS c x b) || b.anyS p
  | .tryS b h => p (.tryS b h) || b.anyS p || h.anyS p
  | .forS x it b => p (.forS x it b) || b.anyS p
  | .whileS c b => p (.whileS c b) || b.anyS p
  | .ifS c t e => p (.ifS c t e) || t.anyS p || e.anyS p
  | .defS n ps b => p (.defS n ps b) || b.anyS p
  | .classS n b => p (.classS n b) || b.anyS p
  | s => p s

def Stmts.anyS (p : Stmt → Bool) : Stmts → Bool
  | .nil => false
  | .cons s ss => s.anyS p || ss.anyS p

end

/- Does some expression occurring anywhere in the statements satisfy `p`? -/
mutual

def Stmt.anyExpr (p : Expr → Bool) : Stmt → Bool
  | .imp _ _ => false
  | .magic _ => false
  | .assign _ e => e.anyE p
  | .assignTup _ e => e.anyE p
  | .setItem _ i e => i.anyE p || e.anyE p
  | .exprS e => e.anyE p
  | .withS c _ b => c.anyE p || b.anyExpr p
  | .tryS b h => b.anyExpr p || h.anyExpr p
  | .forS _ it b => it.anyE p || b.anyExpr p
  | .whileS c b => c.anyE p || b.anyExpr p
  | .ifS c t e => c.anyE p || t.anyExpr p || e.anyExpr p
  | .defS _ _ b => b.anyExpr p
  | .classS _ b => b.anyExpr p

def Stmts.anyExpr (p : Expr → Bool) : Stmts → Bool
  | .nil => false
  | .cons s ss => s.anyExpr p || ss.anyExpr p

end

/- Count the subexpressions satisfying `p`. -/
mutual

def Expr.countE (p : Expr → Bool) : Expr → Nat
  | .attr e f => (if p (.attr e f) then 1 else 0) + e.countE p
  | .call f as ks =>
      (if p (.call f as ks) then 1 else 0) + f.countE p + as.countE p + ks.countE p
  | .sub e i => (if p (.sub e i) then 1 else 0) + e.countE p + i.countE p
  | .inv e => (if p (.inv e) then 1 else 0) + e.countE p
  | .tup es => (if p (.tup es) then 1 else 0) + es.countE p
  | .sliceFrom e => (if p (.sliceFrom e) then 1 else 0) + e.countE p
  | .sliceTo e => (if p (.sliceTo e) then 1 else 0) + e.countE p
  | .sliceBoth a b => (if p (.sliceBoth a b) then 1 else 0) + a.countE p + b.countE p
  | .awaitE e => (if p (.awaitE e) then 1 else 0) + e.countE p
  | e => if p e then 1 else 0

def Exprs.countE (p : Expr → Bool) : Exprs → Nat
  | .nil => 0
  | .cons e es => e.countE p + es.countE p

def Kwargs.countE (p : Expr → Bool) : Kwargs → Nat
  | .nil => 0
  | .cons _ e ks => e.countE p + ks.countE p

end

/- Count, over all expressions of the statements, subexpressions
satisfying `p`. -/
mutual

def Stmt.countExpr (p : Expr → Bool) : Stmt → Nat
  | .imp _ _ => 0
  | .magic _ => 0
  | .assign _ e => e.countE p
  | .assignTup _ e => e.countE p
  | .setItem _ i e => i.countE p + e.countE p
  | .exprS e => e.countE p
  | .withS c _ b => c.countE p + b.countExpr p
  | .tryS b h => b.countExpr p + h.countExpr p
  | .forS _ it b => it.countE p + b.countExpr p
  | .whileS c b => c.countE p + b.countExpr p
  | .ifS c t e => c.countE p + t.countExpr p + e.countExpr p
  | .defS _ _ b => b.countExpr p
  | .classS _ b => b.countExpr p

def Stmts.countExpr (p : Expr → Bool) : Stmts → Nat
  | .nil => 0
  | .cons s ss => s.countExpr p + ss.countExpr p

end

def Notebook.anyS (nb : Notebook) (p : Stmt → Bool) : Bool :=
  nb.stmts.anyS p

def Notebook.anyExpr (nb : Notebook) (p : Expr → Bool) : Bool :=
  nb.stmts.anyExpr p

def Notebook.countExpr (nb : Notebook) (p : Expr → Bool) : Nat :=
  nb.stmts.countExpr p

/-! ## Interpreter

Values of the external libraries are abstract: a `Value` is an opaque object
identity.  Every operation that touches an external library (import, attribute
access, call, subscript) draws its result from an `Oracle`, a map from the
index of the operation (in execution order) to an optional result; `none`
models a failing library call (network error, missing file, malformed query)
and raises, `some v` models a successful call.  Repository code itself never
branches on these values, so the interpreter is exact for the straight-line
programs at hand. -/

abbrev Value := Nat

abbrev Env := List (String × Value)

abbrev Oracle := Nat → Option Value

/-- Interpreter state: the notebook-global environment and the index of the
next external-library operation. -/
structure PyS where
  env : Env
  ctr : Nat

/-- Runtime errors: an undefined name, a failing external-library call
(the `Nat` is the operation index), or fuel exhaustion. -/
inductive Err where
  | nameErr : String → Err
  | extFail : Nat → Err
  | noFuel : Err

def lookupVar : Env → String → Option Value
  | [], _ => none
  | (y, v) :: r, x => if y = x then some v else lookupVar r x

/-- Perform one external-library operation: consult the oracle at the current
operation index; a `none` answer raises. -/
def extStep (o : Oracle) (st : PyS) : Except Err (Value × PyS) :=
  match o st.ctr with
  | some v => .ok (v, ⟨st.env, st.ctr + 1⟩)
  | none => .error (.extFail st.ctr)

mutual

def evalE (o : Oracle) : PyS → Expr → Except Err (Value × PyS)
  | st, .name x =>
      match lookupVar st.env x with
      | some v => .ok (v, st)
      | none => .error (.nameErr x)
  | st, .str _ => .ok (0, st)
  | st, .intL _ => .ok (0, st)
  | st, .ratL _ _ => .ok (0, st)
  | st, .boolL _ => .ok (0, st)
  | st, .attr e _ => do
      let (_, st₁) ← evalE o st e
      extStep o st₁
  | st, .call f as ks => do
      let (_, st₁) ← evalE o st f
      let st₂ ← evalL o st₁ as
      let st₃ ← evalK o st₂ ks
      extStep o st₃
  | st, .sub e i => do
      let (_, st₁) ← evalE o st e
      let (_, st₂) ← evalE o st₁ i
      extStep o st₂
  | st, .inv e => do
      let (_, st₁) ← evalE o st e
      .ok (0, st₁)
  | st, .tup es => do
      let st₁ ← evalL o st es
      .ok (0, st₁)
  | st, .sliceFull => .ok (0, st)
  | st, .sliceFrom e => do
      let (_, st₁) ← evalE o st e
      .ok (0, st₁)
  | st, .sliceTo e => do
      let (_, st₁) ← evalE o st e
      .ok (0, st₁)
  | st, .sliceBoth a b => do
      let (_, st₁) ← evalE o st a
      let (_, st₂) ← evalE o st₁ b
      .ok (0, st₂)
  | st, .awaitE e => evalE o st e

def evalL (o : Oracle) : PyS → Exprs → Except Err PyS
  | st, .nil => .ok st
  | st, .cons e es => do
      let (_, st₁) ← evalE o st e
      evalL o st₁ es

def evalK (o : Oracle) : PyS → Kwargs → Except Err PyS
  | st, .nil => .ok st
  | st, .cons _ e ks => do
      let (_, st₁) ← evalE o st e
      evalK o st₁ ks

end

def bindAll (xs : List String) (v : Value) (env : Env) : Env :=
  match xs with
  | [] => env
  | x :: r => bindAll r v ((x, v) :: env)

mutual

/-- Execute statements.  Fuel decreases on every recursive call, so the
interpreter is total; loop iterations consume fuel (the notebooks contain no
loops, so any fuel at least the statement count suffices for them). -/
def exec (o : Oracle) : Nat → PyS → Stmts → Except Err PyS
  | 0, _, _ => .error .noFuel
  | _ + 1, st, .nil => .ok st
  | fuel + 1, st, .cons s rest =>
    match s with
    | .imp _ x => do
        let (v, st₁) ← extStep o st
        exec o fuel ⟨(x, v) :: st₁.env, st₁.ctr⟩ rest
    | .magic _ => exec o fuel st rest
    | .assign x e => do
        let (v, st₁) ← evalE o st e
        exec o fuel ⟨(x, v) :: st₁.env, st₁.ctr⟩ rest
    | .assignTup xs e => do
        let (v, st₁) ← evalE o st e
        exec o fuel ⟨bindAll xs v st₁.env, st₁.ctr⟩ rest
    | .setItem x i e => do
        let (_, st₁) ← evalE o st (.name x)
        let (_, st₂) ← evalE o st₁ i
        let (_, st₃) ← evalE o st₂ e
        exec o fuel st₃ rest
    | .exprS e => do
        let (_, st₁) ← evalE o st e
        exec o fuel st₁ rest
    | .withS c x b => do
        let (v, st₁) ← evalE o st c
        let st₂ ← exec o fuel ⟨(x, v) :: st₁.env, st₁.ctr⟩ b
        exec o fuel st₂ rest
    | .tryS b h =>
        match exec o fuel st b with
        | .ok st₁ => exec o fuel st₁ rest
        | .error .noFuel => .error .noFuel
        | .error _ => do
            let st₁ ← exec o fuel st h
            exec o fuel st₁ rest
    | .forS x it b => do
        let (v, st₁) ← evalE o st it
        let st₂ ← execIter o fuel v x st₁ b
        exec o fuel st₂ rest
    | .whileS c b => do
        let (v, st₁) ← evalE o st c
        if v ≠ 0 then do
          let st₂ ← exec o fuel st₁ b
          exec o fuel st₂ (.cons (.whileS c b) rest)
        else
          exec o fuel st₁ rest
    | .ifS c t e => do
        let (v, st₁) ← evalE o st c
        if v ≠ 0 then do
          let st₂ ← exec o fuel st₁ t
          exec o fuel st₂ rest
        else do
          let st₂ ← exec o fuel st₁ e
          exec o fuel st₂ rest
    | .defS n _ _ => do
        let (w, st₁) ← extStep o st
        exec o fuel ⟨(n, w) :: st₁.env, st₁.ctr⟩ rest
    | .classS n _ => do
        let (w, st₁) ← extStep o st
        exec o fuel ⟨(n, w) :: st₁.env, st₁.ctr⟩ rest

/-- Iterate a for-loop body; the iteration count is the abstract value of the
iterable. -/
def execIter (o : Oracle) : Nat → Nat → String → PyS → Stmts → Except Err PyS
  | 0, _, _, _, _ => .error .noFuel
  | _ + 1, 0, _, st, _ => .ok st
  | fuel + 1, n + 1, x, st, b => do
      let st₁ ← exec o fuel ⟨(x, 0) :: st.env, st.ctr⟩ b
      execIter o fuel n x st₁ b

end

/-- Run a whole notebook from the empty environment. -/
def runNB (o : Oracle) (fuel : Nat) (nb : Notebook) : Except Err PyS :=
  exec o fuel ⟨[], 0⟩ nb.stmts

def isOkE {α : Type} : Except Err α → Bool
  | .ok _ => true
  | .error _ => false

/-! ## Transcription helpers -/

def v (x : String) : Expr := .name x

def sL (s : String) : Expr := .str s

def c (f : Expr) (as : List Expr) : Expr := .call f (.ofList as) .nil

def ck (f : Expr) (as : List Expr) (ks : List (String × Expr)) : Expr :=
  .call f (.ofList as) (.ofList ks)

def mcall (e : Expr) (f : String) (as : List Expr) : Expr := c (.attr e f) as

def mcallk (e : Expr) (f : String) (as : List Expr)
    (ks : List (String × Expr)) : Expr := ck (.attr e f) as ks

def cell (ss : List Stmt) : Stmts := .ofList ss

/-- Python builtins the notebooks use without importing them. -/
def builtins : Env := [("print", 0), ("repr", 0), ("len", 0)]

/-- Run a whole notebook from the builtin environment. -/
def runNotebook (o : Oracle) (fuel : Nat) (nb : Notebook) : Except Err PyS :=
  exec o fuel ⟨builtins, 0⟩ nb.stmts

/-! ## The notebooks

Transcription of every code cell of the four notebooks of the repository, in
cell order.  Comment-only cells are transcribed as empty cells. -/

/-- Notebook `kepler_plotting_images_from_tpf`: "Plotting Images from Kepler
Target Pixel Files" (astroquery + astropy + matplotlib). -/
def plotting_images_from_tpf : Notebook := [
  cell [.magic "matplotlib inline",
        .imp "numpy" "np",
        .imp "astropy.io.fits" "fits",
        .imp "astropy.table.Table" "Table",
        .imp "matplotlib.pyplot" "plt"],
  cell [.imp "astroquery.mast.Mast" "Mast",
        .imp "astroquery.mast.Observations" "Observations"],
  cell [.assign "keplerObs"
          (mcallk (v "Observations") "query_criteria" []
            [("target_name", sL "kplr008957091"), ("obs_collection", sL "Kepler")]),
        .assign "keplerProds"
          (mcall (v "Observations") "get_product_list"
            [.sub (v "keplerObs") (.intL 0)]),
        .assign "yourProd"
          (mcallk (v "Observations") "filter_products" [v "keplerProds"]
            [("extension", sL "kplr008957091-2012277125453_lpd-targ.fits.gz"),
             ("mrp_only", .boolL false)]),
        .exprS (v "yourProd")],
  cell [.exprS (mcallk (v "Observations") "download_products" [v "yourProd"]
          [("mrp_only", .boolL false), ("cache", .boolL false)])],
  cell [.assign "filename"
          (sL "./mastDownload/Kepler/kplr008957091_lc_Q000000000011111111/kplr008957091-2012277125453_lpd-targ.fits.gz"),
        .exprS (mcall (v "fits") "info" [v "filename"])],
  cell [.withS (mcall (v "fits") "open" [v "filename"]) "hdulist"
          (cell [.assign "header1" (.attr (.sub (v "hdulist") (.intL 1)) "header")]),
        .exprS (c (v "print")
          [c (v "repr") [.sub (v "header1") (.sliceBoth (.intL 1) (.intL 25))]])],
  cell [.withS (mcall (v "fits") "open" [v "filename"]) "hdulist"
          (cell [.assign "binaryext" (.attr (.sub (v "hdulist") (.intL 1)) "data")]),
        .assign "binarytab" (c (v "Table") [v "binaryext"]),
        .exprS (.sub (v "binarytab") (.sliceBoth (.intL 0) (.intL 4)))],
  cell [.exprS (c (v "print") [c (v "len") [.sub (v "binarytab") (sL "TIME")]])],
  cell [.exprS (.sub (.sub (v "binarytab") (sL "FLUX")) (.intL 0))],
  cell [.exprS (mcall (v "plt") "title" [sL "Flux Row 0"]),
        .exprS (mcall (v "plt") "xlabel" [sL "Column"]),
        .exprS (mcall (v "plt") "ylabel" [sL "Row"]),
        .exprS (mcallk (v "plt") "imshow"
          [.sub (.sub (v "binarytab") (sL "FLUX")) (.intL 0)]
          [("cmap", .attr (.attr (v "plt") "cm") "YlGnBu_r")]),
        .exprS (mcall (v "plt") "colorbar" []),
        .exprS (mcall (v "plt") "clim" [.intL 0, .intL 300])],
  cell [.exprS (.sub (.sub (v "binarytab") (sL "FLUX")) (.intL 34))],
  cell [.exprS (mcall (v "plt") "title" [sL "Flux Row 34"]),
        .exprS (mcall (v "plt") "xlabel" [sL "column"]),
        .exprS (mcall (v "plt") "ylabel" [sL "row"]),
        .exprS (mcallk (v "plt") "imshow"
          [.sub (.sub (v "binarytab") (sL "FLUX")) (.intL 34)]
          [("cmap", .attr (.attr (v "plt") "cm") "YlGnBu_r")]),
        .exprS (mcall (v "plt") "colorbar" []),
        .exprS (mcall (v "plt") "clim" [.intL 0, .intL 300])],
  cell [.assign "arr" (mcall (v "np") "subtract"
          [.sub (.sub (v "binarytab") (sL "FLUX")) (.intL 28),
           .sub (.sub (v "binarytab") (sL "FLUX")) (.intL 29)]),
        .exprS (c (v "print") [v "arr"])],
  cell [.exprS (mcall (v "plt") "title" [sL "Flux Row 28 minus 29"]),
        .exprS (mcall (v "plt") "xlabel" [sL "Column"]),
        .exprS (mcall (v "plt") "ylabel" [sL "Row"]),
        .exprS (mcallk (v "plt") "imshow" [v "arr"]
          [("cmap", .attr (.attr (v "plt") "cm") "YlGnBu_r")]),
        .exprS (mcall (v "plt") "colorbar" []),
        .exprS (mcall (v "plt") "clim" [.intL (-4), .intL 12])],
  cell [.withS (mcall (v "fits") "open" [v "filename"]) "hdulist"
          (cell [.assign "imgdata" (.attr (.sub (v "hdulist") (.intL 2)) "data")]),
        .exprS (c (v "print") [v "imgdata"])],
  cell [.exprS (mcall (v "plt") "figure" []),
        .exprS (mcall (v "plt") "title" [sL "TPF APERTURE"]),
        .exprS (mcall (v "plt") "xlabel" [sL "Column"]),
        .exprS (mcall (v "plt") "ylabel" [sL "Row"]),
        .exprS (mcallk (v "plt") "imshow" [v "imgdata"]
          [("cmap", .attr (.attr (v "plt") "cm") "YlGnBu_r")])]]

/-- Notebook `identifying_transiting_planets`: "Identifying Transiting Planet
Signals in a Kepler Light Curve" (lightkurve + numpy). -/
def identifying_transiting_planets : Notebook := [
  cell [.imp "lightkurve" "lk",
        .magic "matplotlib inline"],
  cell [.assign "search_result"
          (mcallk (v "lk") "search_lightcurve" [sL "Kepler-69"]
            [("author", sL "Kepler"), ("cadence", sL "long")]),
        .assign "lc_collection" (mcall (v "search_result") "download_all" []),
        .exprS (mcall (v "lc_collection") "plot" [])],
  cell [.exprS (v "search_result")],
  cell [.assign "lc"
          (mcall
            (mcallk (mcall (v "lc_collection") "stitch" []) "flatten" []
              [("window_length", .intL 901)])
            "remove_outliers" []),
        .exprS (mcall (v "lc") "plot" [])],
  cell [.imp "numpy" "np",
        .assign "period" (mcall (v "np") "linspace" [.intL 1, .intL 20, .intL 10000]),
        .assign "bls"
          (mcallk (v "lc") "to_periodogram" []
            [("method", sL "bls"), ("period", v "period"),
             ("frequency_factor", .intL 100)]),
        .exprS (mcall (v "bls") "plot" [])],
  cell [.assign "planet_b_period" (.attr (v "bls") "period_at_max_power"),
        .assign "planet_b_t0" (.attr (v "bls") "transit_time_at_max_power"),
        .assign "planet_b_dur" (.attr (v "bls") "duration_at_max_power"),
        .exprS (v "planet_b_period")],
  cell [.assign "ax"
          (mcall
            (mcallk (v "lc") "fold" []
              [("period", v "planet_b_period"), ("epoch_time", v "planet_b_t0")])
            "scatter" []),
        .exprS (mcall (v "ax") "set_xlim" [.intL (-5), .intL 5])],
  cell [.assign "planet_b_mask"
          (mcallk (v "bls") "get_transit_mask" []
            [("period", v "planet_b_period"), ("transit_time", v "planet_b_t0"),
             ("duration", v "planet_b_dur")])],
  cell [.assign "masked_lc" (.sub (v "lc") (.inv (v "planet_b_mask"))),
        .assign "ax" (mcall (v "masked_lc") "scatter" []),
        .exprS (mcallk (.sub (v "lc") (v "planet_b_mask")) "scatter" []
          [("ax", v "ax"), ("c", sL "r"), ("label", sL "Masked")])],
  cell [.assign "planet_b_model"
          (mcallk (v "bls") "get_transit_model" []
            [("period", v "planet_b_period"), ("transit_time", v "planet_b_t0"),
             ("duration", v "planet_b_dur")])],
  cell [.assign "ax"
          (mcall (mcall (v "lc") "fold" [v "planet_b_period", v "planet_b_t0"])
            "scatter" []),
        .exprS (mcallk
          (mcall (v "planet_b_model") "fold" [v "planet_b_period", v "planet_b_t0"])
          "plot" [] [("ax", v "ax"), ("c", sL "r"), ("lw", .intL 2)]),
        .exprS (mcall (v "ax") "set_xlim" [.intL (-5), .intL 5])],
  cell [.assign "period" (mcall (v "np") "linspace" [.intL 1, .intL 300, .intL 10000]),
        .assign "bls"
          (mcallk (v "masked_lc") "to_periodogram" [sL "bls"]
            [("period", v "period")]),
        .exprS (mcall (v "bls") "plot" [])],
  cell [.assign "planet_c_period" (.attr (v "bls") "period_at_max_power"),
        .assign "planet_c_t0" (.attr (v "bls") "transit_time_at_max_power"),
        .assign "planet_c_dur" (.attr (v "bls") "duration_at_max_power"),
        .exprS (v "planet_c_period")],
  cell [.assign "ax"
          (mcall
            (mcall (v "masked_lc") "fold" [v "planet_c_period", v "planet_c_t0"])
            "scatter" []),
        .exprS (mcallk
          (mcall
            (mcall (v "masked_lc") "fold" [v "planet_c_period", v "planet_c_t0"])
            "bin" [.ratL 1 10])
          "plot" []
          [("ax", v "ax"), ("c", sL "r"), ("lw", .intL 2),
           ("label", sL "Binned Flux")]),
        .exprS (mcall (v "ax") "set_xlim" [.intL (-5), .intL 5])],
  cell [.assign "planet_c_model"
          (mcallk (v "bls") "get_transit_model" []
            [("period", v "planet_c_period"), ("transit_time", v "planet_c_t0"),
             ("duration", v "planet_c_dur")])],
  cell [.assign "ax" (mcall (v "lc") "scatter" []),
        .exprS (mcallk (v "planet_b_model") "plot" []
          [("ax", v "ax"), ("c", sL "dodgerblue"),
           ("label", sL "Planet b Transit Model")]),
        .exprS (mcallk (v "planet_c_model") "plot" []
          [("ax", v "ax"), ("c", sL "r"),
           ("label", sL "Planet c Transit Model")])],
  cell [.exprS (mcall (v "lk") "show_citation_instructions" [])]]

def tupE (es : List Expr) : Expr := .tup (.ofList es)

/-- Notebook `kepler_creating_your_own_light_curves` (lightkurve + numpy). -/
def creating_your_own_light_curves : Notebook := [
  cell [.imp "lightkurve" "lk",
        .imp "numpy" "np",
        .magic "matplotlib inline"],
  cell [.assign "tpf_example"
          (mcall
            (mcallk (v "lk") "search_targetpixelfile" [sL "KIC 7461601"]
              [("mission", sL "Kepler"), ("cadence", sL "long"),
               ("quarter", .intL 10)])
            "download" [])],
  cell [.exprS (mcall (v "tpf_example") "plot" [])],
  cell [.exprS (mcallk (v "tpf_example") "plot" []
          [("aperture_mask", sL "pipeline")])],
  cell [.assign "tpf"
          (mcallk
            (mcallk (v "lk") "search_targetpixelfile" [sL "KIC 2437317"]
              [("mission", sL "Kepler"), ("cadence", sL "long"),
               ("quarter", .intL 10)])
            "download" [] [("quality_bitmask", sL "hard")])],
  cell [.exprS (mcall (v "tpf") "plot" [])],
  cell [.exprS (mcallk (v "tpf") "plot" [] [("aperture_mask", sL "pipeline")])],
  cell [.assign "lc"
          (mcallk (v "tpf") "to_lightcurve" [] [("aperture_mask", sL "pipeline")]),
        .exprS (mcall (v "lc") "plot" [])],
  cell [.assign "ax"
          (mcallk
            (mcall
              (mcallk (v "tpf") "to_lightcurve" []
                [("aperture_mask", sL "pipeline")])
              "normalize" [])
            "plot" [] [("label", sL "pipeline"), ("linewidth", .intL 2)]),
        .exprS (mcallk
          (mcall
            (mcallk (v "tpf") "to_lightcurve" []
              [("aperture_mask", sL "threshold")])
            "normalize" [])
          "plot" []
          [("ax", v "ax"), ("label", sL "threshold"), ("linewidth", .intL 2)]),
        .exprS (mcallk
          (mcall
            (mcallk (v "tpf") "to_lightcurve" [] [("aperture_mask", sL "all")])
            "normalize" [])
          "plot" []
          [("ax", v "ax"), ("label", sL "all"), ("linewidth", .intL 2)])],
  cell [.exprS (mcall (v "tpf") "create_threshold_mask" [])],
  cell [.assign "custom_threshold_mask"
          (mcallk (v "tpf") "create_threshold_mask" [] [("threshold", .intL 1)]),
        .exprS (v "custom_threshold_mask")],
  cell [.assign "ax"
          (mcallk
            (mcall
              (mcallk (v "tpf") "to_lightcurve" []
                [("aperture_mask", sL "pipeline")])
              "normalize" [])
            "plot" [] [("label", sL "pipeline"), ("alpha", .ratL 3 10)]),
        .exprS (mcallk
          (mcall
            (mcallk (v "tpf") "to_lightcurve" []
              [("aperture_mask", sL "threshold")])
            "normalize" [])
          "plot" []
          [("ax", v "ax"), ("label", sL "threshold"), ("alpha", .ratL 3 10)]),
        .exprS (mcallk
          (mcall
            (mcallk (v "tpf") "to_lightcurve" [] [("aperture_mask", sL "all")])
            "normalize" [])
          "plot" []
          [("ax", v "ax"), ("label", sL "all"), ("alpha", .ratL 3 10)]),
        .exprS (mcallk
          (mcall
            (mcallk (v "tpf") "to_lightcurve" []
              [("aperture_mask", v "custom_threshold_mask")])
            "normalize" [])
          "plot" []
          [("ax", v "ax"), ("label", sL "custom threshold"),
           ("linewidth", .intL 2)])],
  cell [.assign "tpf_crowded"
          (mcallk
            (mcallk (v "lk") "search_targetpixelfile" [sL "KIC 2437901"]
              [("mission", sL "Kepler"), ("cadence", sL "long"),
               ("quarter", .intL 10)])
            "download" [] [("quality_bitmask", sL "hard")])],
  cell [.exprS (mcallk (v "tpf_crowded") "plot" []
          [("aperture_mask", sL "pipeline")])],
  cell [.exprS (mcallk (v "tpf_crowded") "create_threshold_mask" []
          [("threshold", .intL 1)])],
  cell [.exprS (mcallk (v "tpf_crowded") "plot" []
          [("aperture_mask",
            mcallk (v "tpf_crowded") "create_threshold_mask" []
              [("threshold", .intL 1)])])],
  cell [.assign "custom_mask"
          (mcallk (v "tpf_crowded") "create_threshold_mask" []
            [("threshold", .intL 1),
             ("reference_pixel", tupE [.intL 7, .intL 7])]),
        .exprS (mcallk (v "tpf_crowded") "plot" []
          [("aperture_mask", v "custom_mask")])],
  cell [.assign "lc_background_star"
          (mcallk (v "tpf_crowded") "to_lightcurve" []
            [("aperture_mask", v "custom_mask")]),
        .exprS (mcall (v "lc_background_star") "plot" [])],
  cell [.assign "custom_mask"
          (mcallk (v "np") "zeros"
            [.sub (.attr (.sub (v "tpf_crowded") (.intL 0)) "shape")
              (.sliceFrom (.intL 1))]
            [("dtype", sL "bool")]),
        .setItem "custom_mask"
          (.tup (.ofList [.sliceFrom (.intL (-3)), .sliceFrom (.intL 5)]))
          (.boolL true),
        .exprS (v "custom_mask")],
  cell [.exprS (mcallk (v "tpf_crowded") "plot" []
          [("aperture_mask", v "custom_mask")])],
  cell [.exprS (mcall (v "tpf_crowded") "plot" [])],
  cell [.assign "tpf_cut"
          (mcallk (v "tpf_crowded") "cutout" []
            [("center", tupE [.intL 8, .intL 7])])],
  cell [.exprS (mcall (v "tpf_cut") "plot" [])],
  cell [.exprS (mcallk (v "tpf_cut") "create_threshold_mask" []
          [("threshold", .intL 1)])],
  cell [.assign "cut_mask"
          (mcallk (v "np") "zeros"
            [.sub (.attr (.sub (v "tpf_cut") (.intL 0)) "shape")
              (.sliceFrom (.intL 1))]
            [("dtype", sL "bool")]),
        .setItem "cut_mask" (.tup (.ofList [.sliceFull, .intL 1])) (.boolL true),
        .setItem "cut_mask" (.tup (.ofList [.intL 1, .intL 2])) (.boolL true),
        .exprS (v "cut_mask")],
  cell [.exprS (mcallk (v "tpf_cut") "plot" [] [("aperture_mask", v "cut_mask")])],
  cell [.assign "lc_background_star_cut"
          (mcallk (v "tpf_cut") "to_lightcurve" []
            [("aperture_mask", v "cut_mask")]),
        .exprS (mcall (v "lc_background_star_cut") "plot" [])],
  cell [.exprS (mcall (v "lk") "show_citation_instructions" [])]]

/-- Notebook `kepler_plotting_target_pixel_files` (lightkurve + matplotlib). -/
def plotting_target_pixel_files : Notebook := [
  cell [.imp "lightkurve" "lk",
        .imp "matplotlib.pyplot" "plt",
        .magic "matplotlib inline"],
  cell [.assign "search_result"
          (mcallk (v "lk") "search_targetpixelfile" [sL "Kepler-8"]
            [("mission", sL "Kepler"), ("quarter", .intL 4)]),
        .exprS (v "search_result")],
  cell [.assign "tpf" (mcall (v "search_result") "download" [])],
  cell [.assign "first_cadence" (.sub (v "tpf") (.intL 0)),
        .exprS (v "first_cadence")],
  cell [.exprS (.attr (.attr (v "first_cadence") "flux") "value")],
  cell [.exprS (mcallk (v "first_cadence") "plot" [] [("column", sL "flux")])],
  cell [.assignTup ["fig", "axes"]
          (mcallk (v "plt") "subplots" [.intL 2, .intL 2]
            [("figsize", tupE [.intL 16, .intL 16])]),
        .exprS (mcallk (v "first_cadence") "plot" []
          [("ax", .sub (v "axes") (.tup (.ofList [.intL 0, .intL 0]))),
           ("column", sL "FLUX")]),
        .exprS (mcallk (v "first_cadence") "plot" []
          [("ax", .sub (v "axes") (.tup (.ofList [.intL 0, .intL 1]))),
           ("column", sL "FLUX_BKG")]),
        .exprS (mcallk (v "first_cadence") "plot" []
          [("ax", .sub (v "axes") (.tup (.ofList [.intL 1, .intL 0]))),
           ("column", sL "FLUX_ERR")]),
        .exprS (mcallk (v "first_cadence") "plot" []
          [("ax", .sub (v "axes") (.tup (.ofList [.intL 1, .intL 1]))),
           ("column", sL "FLUX_BKG_ERR")])],
  cell [.exprS (mcallk (v "first_cadence") "plot" [] [("bkg", .boolL true)])],
  cell [.exprS (.attr (v "first_cadence") "pipeline_mask")],
  cell [.exprS (mcallk (v "first_cadence") "plot" []
          [("aperture_mask", .attr (v "first_cadence") "pipeline_mask")])],
  cell [.assign "lc" (mcall (v "tpf") "to_lightcurve" [])],
  cell [.exprS (v "lc")],
  cell [.exprS (mcall (v "lc") "plot" [])],
  cell [.assign "bkg" (mcall (v "tpf") "get_bkg_lightcurve" []),
        .exprS (mcall (v "bkg") "plot" [])],
  cell [],
  cell [.assign "datalist"
          (mcall (v "lk") "search_targetpixelfile" [sL "Kepler-10"]),
        .exprS (v "datalist")],
  cell [.assign "kep" (mcall (.sub (v "datalist") (.intL 6)) "download" []),
        .assign "tes" (mcall (.sub (v "datalist") (.intL 15)) "download" [])],
  cell [.assignTup ["fig", "axes"]
          (mcallk (v "plt") "subplots" [.intL 1, .intL 2]
            [("figsize", tupE [.intL 14, .intL 6])]),
        .exprS (mcallk (v "kep") "plot" []
          [("ax", .sub (v "axes") (.intL 0)),
           ("aperture_mask", .attr (v "kep") "pipeline_mask"),
           ("scale", sL "log")]),
        .exprS (mcallk (v "tes") "plot" []
          [("ax", .sub (v "axes") (.intL 1)),
           ("aperture_mask", .attr (v "tes") "pipeline_mask")]),
        .exprS (mcall (v "fig") "tight_layout" [])],
  cell [.assign "lc_kep" (mcall (v "kep") "to_lightcurve" []),
        .assign "lc_tes" (mcall (v "tes") "to_lightcurve" [])],
  cell [.assignTup ["fig", "axes"]
          (mcallk (v "plt") "subplots" [.intL 1, .intL 2]
            [("figsize", tupE [.intL 14, .intL 6]), ("sharey", .boolL true)]),
        .exprS (mcallk (mcall (v "lc_kep") "flatten" []) "plot" []
          [("ax", .sub (v "axes") (.intL 0)), ("c", sL "k"),
           ("alpha", .ratL 8 10)]),
        .exprS (mcallk (mcall (v "lc_tes") "flatten" []) "plot" []
          [("ax", .sub (v "axes") (.intL 1)), ("c", sL "k"),
           ("alpha", .ratL 8 10)])]]

/-- The four notebooks of the repository. -/
def allNotebooks : List Notebook :=
  [plotting_images_from_tpf, identifying_transiting_planets,
   creating_your_own_light_curves, plotting_target_pixel_files]

/-! ## Syntactic analyses -/

/-- A call that renders data into a plot: the `plot`, `scatter` and `imshow`
calls of matplotlib and lightkurve. -/
def isPlotCall : Expr → Bool
  | .call (.attr _ f) _ _ => f = "plot" || f = "scatter" || f = "imshow"
  | _ => false

/-- A remote archive query (astroquery `query_criteria`/`get_product_list`,
lightkurve `search_lightcurve`/`search_targetpixelfile`). -/
def isQueryCall : Expr → Bool
  | .call (.attr _ f) _ _ =>
      f = "query_criteria" || f = "get_product_list" ||
      f = "search_lightcurve" || f = "search_targetpixelfile"
  | _ => false

/-- A file download (astroquery `download_products`, lightkurve
`download`/`download_all`). -/
def isDownloadCall : Expr → Bool
  | .call (.attr _ f) _ _ =>
      f = "download" || f = "download_all" || f = "download_products"
  | _ => false

def plotCallCount (nb : Notebook) : Nat := nb.countExpr isPlotCall

def queryCallCount (nb : Notebook) : Nat := nb.countExpr isQueryCall

def downloadCallCount (nb : Notebook) : Nat := nb.countExpr isDownloadCall

def Stmt.isTry : Stmt → Bool
  | .tryS _ _ => true
  | _ => false

def Stmt.isLoop : Stmt → Bool
  | .forS _ _ _ => true
  | .whileS _ _ => true
  | _ => false

def Stmt.isCond : Stmt → Bool
  | .ifS _ _ _ => true
  | _ => false

def Stmt.isDefOrClass : Stmt → Bool
  | .defS _ _ _ => true
  | .classS _ _ => true
  | _ => false

/-- No loop, conditional, function definition or class definition anywhere:
the notebook is a straight-line sequence of statements. -/
def straightLine (nb : Notebook) : Bool :=
  !(nb.anyS fun s => s.isTry || s.isLoop || s.isCond || s.isDefOrClass)

/-- Modules providing threads, processes, or asynchronous execution. -/
def concurrencyModules : List String :=
  ["threading", "_thread", "asyncio", "multiprocessing", "concurrent.futures",
   "queue", "subprocess"]

def Stmt.isConcurrencyImport : Stmt → Bool
  | .imp m _ => concurrencyModules.contains m
  | _ => false

def isAwaitExpr : Expr → Bool
  | .awaitE _ => true
  | _ => false

/-- Names of thread/process/task spawning primitives. -/
def spawnNames : List String :=
  ["Thread", "Process", "Pool", "ThreadPoolExecutor", "ProcessPoolExecutor",
   "create_task", "ensure_future", "submit", "run_in_executor", "start_new_thread"]

def isSpawnCall : Expr → Bool
  | .call (.attr _ f) _ _ => spawnNames.contains f
  | .call (.name f) _ _ => spawnNames.contains f
  | _ => false

/-- Names of filesystem-writing routines; the bare builtin `open` is included
conservatively (any use of it could write). -/
def fsWriteNames : List String :=
  ["savefig", "writeto", "to_fits", "to_csv", "write", "save", "savetxt",
   "dump", "mkdir", "makedirs", "remove", "unlink", "rmtree", "rename"]

def isFsWriteCall : Expr → Bool
  | .call (.attr _ f) _ _ => fsWriteNames.contains f
  | .call (.name f) _ _ => fsWriteNames.contains f || f = "open"
  | _ => false

/-- Names of randomness, clock and environment reading routines. -/
def nondetNames : List String :=
  ["random", "rand", "randn", "randint", "seed", "normal", "shuffle", "choice",
   "time", "now", "today", "getenv", "urandom", "uuid4"]

def isNondetCall : Expr → Bool
  | .call (.attr _ f) _ _ => nondetNames.contains f
  | .call (.name f) _ _ => nondetNames.contains f
  | .attr _ "random" => true
  | _ => false

/-- Modules whose import signals randomness, clock or environment use. -/
def nondetModules : List String :=
  ["random", "time", "datetime", "os", "secrets", "uuid"]

def Stmt.isNondetImport : Stmt → Bool
  | .imp m _ => nondetModules.contains m
  | _ => false

/-! Collect the values passed as `aperture_mask` arguments. -/

mutual

def Expr.apArgs : Expr → List Expr
  | .attr e _ => e.apArgs
  | .call f as ks => f.apArgs ++ as.apArgs ++ ks.apArgs
  | .sub e i => e.apArgs ++ i.apArgs
  | .inv e => e.apArgs
  | .tup es => es.apArgs
  | .sliceFrom e => e.apArgs
  | .sliceTo e => e.apArgs
  | .sliceBoth a b => a.apArgs ++ b.apArgs
  | .awaitE e => e.apArgs
  | _ => []

def Exprs.apArgs : Exprs → List Expr
  | .nil => []
  | .cons e es => e.apArgs ++ es.apArgs

def Kwargs.apArgs : Kwargs → List Expr
  | .nil => []
  | .cons k e ks =>
      (if k = "aperture_mask" then [e] else []) ++ e.apArgs ++ ks.apArgs

end

mutual

def Stmt.apArgs : Stmt → List Expr
  | .imp _ _ => []
  | .magic _ => []
  | .assign _ e => e.apArgs
  | .assignTup _ e => e.apArgs
  | .setItem _ i e => i.apArgs ++ e.apArgs
  | .exprS e => e.apArgs
  | .withS c _ b => c.apArgs ++ b.apArgs
  | .tryS b h => b.apArgs ++ h.apArgs
  | .forS _ it b => it.apArgs ++ b.apArgs
  | .whileS c b => c.apArgs ++ b.apArgs
  | .ifS c t e => c.apArgs ++ t.apArgs ++ e.apArgs
  | .defS _ _ b => b.apArgs
  | .classS _ b => b.apArgs

def Stmts.apArgs : Stmts → List Expr
  | .nil => []
  | .cons s ss => s.apArgs ++ ss.apArgs

end

/-! Collect the right-hand sides of assignments to a given name. -/

mutual

def Stmt.assignsTo (x : String) : Stmt → List Expr
  | .assign y e => if y = x then [e] else []
  | .assignTup ys e => if ys.contains x then [e] else []
  | .withS _ _ b => b.assignsTo x
  | .tryS b h => b.assignsTo x ++ h.assignsTo x
  | .forS _ _ b => b.assignsTo x
  | .whileS _ b => b.assignsTo x
  | .ifS _ t e => t.assignsTo x ++ e.assignsTo x
  | .defS _ _ b => b.assignsTo x
  | .classS _ b => b.assignsTo x
  | _ => []

def Stmts.assignsTo (x : String) : Stmts → List Expr
  | .nil => []
  | .cons s ss => s.assignsTo x ++ ss.assignsTo x

end

/-- Does the keyword list bind key `k` to the string literal `sval`? -/
def Kwargs.hasStrPair (k sval : String) : Kwargs → Bool
  | .nil => false
  | .cons k₁ (.str s) ks => (k₁ = k && s = sval) || ks.hasStrPair k sval
  | .cons _ _ ks => ks.hasStrPair k sval

/-- A mask produced by the external photometry library: one of the mask
keywords, a `create_threshold_mask` call, or the pipeline mask attribute. -/
def isLibraryMaskExpr : Expr → Bool
  | .str s => s = "pipeline" || s = "threshold" || s = "all"
  | .call (.attr _ f) _ _ => f = "create_threshold_mask"
  | .attr _ f => f = "pipeline_mask"
  | _ => false

/-- A user-built boolean numpy array: `np.zeros(..., dtype='bool')`. -/
def isNumpyBoolArray : Expr → Bool
  | .call (.attr (.name "np") "zeros") _ ks => ks.hasStrPair "dtype" "bool"
  | _ => false

/-- Every expression passed as an `aperture_mask` argument in `nb` is a
library-produced mask, a numpy boolean array, or a variable all of whose
assignments are such. -/
def apertureMasksOK (nb : Notebook) : Bool :=
  nb.stmts.apArgs.all fun e =>
    isLibraryMaskExpr e || isNumpyBoolArray e ||
    (match e with
     | .name x =>
         let rhs := nb.stmts.assignsTo x
         !rhs.isEmpty &&
         rhs.all fun r => isLibraryMaskExpr r || isNumpyBoolArray r
     | _ => false)

/-- A numpy value-construction call: the notebooks use `np.zeros`,
`np.subtract` and `np.linspace`. -/
def isNumpyComputeCall : Expr → Bool
  | .call (.attr (.name "np") f) _ _ =>
      f = "zeros" || f = "subtract" || f = "linspace"
  | _ => false

/-- A statement in which repository code itself constructs or mutates a
value: an assignment whose right-hand side applies a numpy construction
routine, or an in-place subscript assignment. -/
def Stmt.constructsValue : Stmt → Bool
  | .assign _ e => e.anyE isNumpyComputeCall
  | .setItem _ _ _ => true
  | _ => false

/-- The trivial hand-built values the notebooks construct: a boolean
aperture-mask array (`np.zeros(..., dtype='bool')`), a boolean slice
assignment into such a mask, the frame-difference image (`np.subtract` of two
subscripted flux rows), or a constant period grid (`np.linspace` on integer
literals). -/
def Stmt.isTrivialConstruction : Stmt → Bool
  | .assign _ (.call (.attr (.name "np") "zeros") _ ks) =>
      ks.hasStrPair "dtype" "bool"
  | .setItem _ _ (.boolL _) => true
  | .assign _ (.call (.attr (.name "np") "subtract")
      (.cons (.sub _ _) (.cons (.sub _ _) .nil)) .nil) => true
  | .assign _ (.call (.attr (.name "np") "linspace")
      (.cons (.intL _) (.cons (.intL _) (.cons (.intL _) .nil))) .nil) => true
  | _ => false

def Notebook.allS (nb : Notebook) (p : Stmt → Bool) : Bool :=
  !(nb.anyS fun s => !(p s))

/-- The oracle under which the `j`-th external-library operation fails and
every other one succeeds. -/
def failAt (j : Nat) : Oracle := fun k => if k = j then none else some 0

/-- Did the run abort with the exception of the `j`-th external operation
propagated, unhandled, to the toplevel? -/
def failsAs (r : Except Err PyS) (j : Nat) : Bool :=
  match r with
  | .error (.extFail i) => i = j
  | _ => false

/-- The `lc` binding visible after a run. -/
def lcBinding (r : Except Err PyS) : Except Err (Option Value) :=
  Except.map (fun st => lookupVar st.env "lc") r

/-- The first four cells of the transit-search notebook: everything up to and
including the cell that assigns `lc`. -/
def transit_lc_prefix : Notebook := List.take 4 identifying_transiting_planets

/-- Boolean-mask indexing as implemented by the external photometry library
(numpy-style fancy indexing, which `LightCurve.__getitem__` delegates to):
select the entries at the positions where the mask holds `True`, producing a
new sequence and leaving the input untouched. -/
def maskSelect {α : Type} : List Bool → List α → List α
  | true :: m, x :: xs => x :: maskSelect m xs
  | false :: m, _ :: xs => maskSelect m xs
  | _, _ => []

/-- Pointwise boolean negation, the semantics of numpy `~` on a boolean
array. -/
def maskNot (m : List Bool) : List Bool := m.map fun b => !b

/-! ## Helper lemmas -/

/-- Selecting by the negated mask and by the mask partitions the list: the two
selections together are a permutation of the original. -/
theorem maskSelect_partition_perm {α : Type} :
    ∀ (m : List Bool) (xs : List α), m.length = xs.length →
    (maskSelect (maskNot m) xs ++ maskSelect m xs).Perm xs := by
  intro m
  induction m with
  | nil =>
      intro xs h
      cases xs with
      | nil => exact List.Perm.refl _
      | cons x xs => simp at h
  | cons b m ih =>
      intro xs h
      cases xs with
      | nil => simp at h
      | cons x xs =>
          have h' : m.length = xs.length := by simpa using h
          cases b with
          | true => exact List.perm_middle.trans ((ih xs h').cons x)
          | false => exact (ih xs h').cons x

/-! ## The claims -/

set_option maxHeartbeats 2000000 in
/-- Claim C1: assuming every external library call succeeds (the archive is
reachable and the queried product exists, the downloaded FITS file is present
and well-formed at the hard-coded path), each notebook's cell sequence
executes top-to-bottom without raising an exception.  The assumption is the
totality of the oracle; the run also never raises a `NameError` of its own,
i.e. every variable is assigned before use. -/
theorem notebooks_execute_without_raising :
    ∀ o : Oracle, (∀ k, (o k).isSome = true) →
    (allNotebooks.all fun nb => isOkE (runNotebook o 300 nb)) = true := by
  intro o h
  have ho : o = fun k => some ((o k).get (h k)) :=
    funext fun k => (Option.some_get (h k)).symm
  rw [ho]
  rfl

/-- Witness for C1 at the constant successful oracle. -/
theorem notebooks_execute_without_raising_witness :
    ((fun _ => some 0 : Oracle) 0).isSome = true ∧
    (allNotebooks.all fun nb =>
      isOkE (runNotebook (fun _ => some 0) 300 nb)) = true :=
  ⟨rfl, notebooks_execute_without_raising (fun _ => some 0) (fun _ => rfl)⟩

/-- Claim C2: for every notebook and every failure of an external library
call, the exception propagates unhandled from the underlying library directly
to the notebook's toplevel: no notebook contains a try/except or a retry
loop, and if the `j`-th external operation fails (for any `j` within the
notebook's operation count) the run aborts with exactly that operation's
exception. -/
theorem failures_propagate_unhandled :
    (allNotebooks.all fun nb => !(nb.anyS fun s => s.isTry || s.isLoop)) = true ∧
    (∀ j, j < 107 →
      failsAs (runNotebook (failAt j) 300 plotting_images_from_tpf) j = true) ∧
    (∀ j, j < 82 →
      failsAs (runNotebook (failAt j) 300 identifying_transiting_planets) j = true) ∧
    (∀ j, j < 116 →
      failsAs (runNotebook (failAt j) 300 creating_your_own_light_curves) j = true) ∧
    (∀ j, j < 75 →
      failsAs (runNotebook (failAt j) 300 plotting_target_pixel_files) j = true) :=
  ⟨rfl, by decide, by decide, by decide, by decide⟩

/-- Witness for C2: failing the very first external operation of the first
notebook aborts the run with that operation's exception. -/
theorem failures_propagate_unhandled_witness :
    0 < 107 ∧
    failsAs (runNotebook (failAt 0) 300 plotting_images_from_tpf) 0 = true :=
  ⟨by decide, failures_propagate_unhandled.2.1 0 (by decide)⟩

/-- Claim C3, counterexample: the claim "repository code only reads or
displays values already computed by the external libraries, and never
constructs or modifies such an entity nor computes new derived values itself"
is false: the light-curve notebook hand-builds and mutates aperture-mask
arrays (`np.zeros(..., dtype='bool')` followed by boolean slice assignment),
and the pixel-file notebook computes a frame-difference image with
`np.subtract`. -/
theorem repository_constructs_values_cex :
    (creating_your_own_light_curves.anyS Stmt.constructsValue) = true ∧
    (plotting_images_from_tpf.anyS Stmt.constructsValue) = true :=
  ⟨rfl, rfl⟩

/-- Claim C3, amended: every statement in which repository code itself
constructs or mutates a value is one of the trivial hand-built ones — a
boolean aperture-mask array from `np.zeros(..., dtype='bool')`, a boolean
slice assignment into such a mask, the frame-difference image from
`np.subtract` of two flux rows, or a constant period grid from `np.linspace`
on integer literals; all other repository statements only read or display
library-computed values. -/
theorem only_trivial_constructions :
    (allNotebooks.all fun nb =>
      nb.allS fun s => !(s.constructsValue) || s.isTrivialConstruction) = true :=
  rfl

/-- Claim C4, counterexample: the first notebook issues four plotting calls
(`plt.imshow`), exceeding two, and two remote query calls, exceeding one. -/
theorem call_budget_cex :
    ¬(plotCallCount plotting_images_from_tpf ≤ 2) ∧
    ¬(queryCallCount plotting_images_from_tpf ≤ 1) := by
  refine ⟨?_, ?_⟩ <;> decide

/-- Claim C4, amended: per notebook the exact numbers of plotting calls are
4, 14, 21 and 13 (so up to twenty-one, not two), of remote query calls 2, 1,
3 and 2, and of download calls 1, 1, 3 and 3. -/
theorem call_counts_amended :
    allNotebooks.map plotCallCount = [4, 14, 21, 13] ∧
    allNotebooks.map queryCallCount = [2, 1, 3, 2] ∧
    allNotebooks.map downloadCallCount = [1, 1, 3, 3] :=
  ⟨rfl, rfl, rfl⟩

/-- Claim C5: every notebook is a straight-line sequence of statements with
no loops, no conditionals, no function or class definitions (hence no
recursion), and its execution is a total, trivially terminating composition
of external-library calls: under any successful oracle every notebook runs to
completion within fuel proportional to its statement count. -/
theorem notebooks_are_linear_scripts :
    (allNotebooks.all straightLine) = true ∧
    ∀ f : Nat → Value,
      (allNotebooks.all fun nb =>
        isOkE (runNotebook (fun k => some (f k)) 300 nb)) = true :=
  ⟨rfl, fun _ => rfl⟩

/-- Claim C6: every value passed as an aperture mask by the notebooks comes
either from the external library's thresholding or pipeline routines
(`create_threshold_mask`, the pipeline mask, the `pipeline`/`threshold`/`all`
keywords) or is a user-built boolean numpy array
(`np.zeros(..., dtype='bool')`), including when the mask is passed through a
variable (judged by all assignments to that variable). -/
theorem aperture_mask_provenance :
    (allNotebooks.all apertureMasksOK) = true :=
  rfl

/-- Claim C7: no repository code writes to the file system: no notebook
contains a call to a filesystem-writing routine (save/write/mkdir/remove
etc. or the builtin `open`); the only persistence is the caching performed
inside the external download calls. -/
theorem no_repository_filesystem_writes :
    (allNotebooks.all fun nb => !(nb.anyExpr isFsWriteCall)) = true :=
  rfl

/-- Claim C8: execution is single-threaded, synchronous and cell-by-cell: no
notebook imports a concurrency module, contains an await, spawns a thread,
process or task, or defines a function or class (so the only mutable state is
the notebook-global environment). -/
theorem single_threaded_synchronous :
    (allNotebooks.all fun nb => !(nb.anyS Stmt.isConcurrencyImport)) = true ∧
    (allNotebooks.all fun nb => !(nb.anyExpr isAwaitExpr)) = true ∧
    (allNotebooks.all fun nb => !(nb.anyExpr isSpawnCall)) = true ∧
    (allNotebooks.all fun nb => !(nb.anyS Stmt.isDefOrClass)) = true :=
  ⟨rfl, rfl, rfl, rfl⟩

set_option maxHeartbeats 2000000 in
/-- Claim C9: in the transit-search notebook, constructing
`masked_lc = lc[~planet_b_mask]` does not modify `lc` — after the full run
the `lc` binding is exactly the one produced by its defining cell, so the
later folds and scatters see the original light curve — and a boolean mask
partitions the cadences exactly: the selection by `~mask` together with the
selection by `mask` is a permutation of the original cadence list, and their
lengths add up. -/
theorem transit_mask_partition_and_frame :
    (∀ f : Nat → Value,
      lcBinding (runNotebook (fun k => some (f k)) 300 identifying_transiting_planets)
      = lcBinding (runNotebook (fun k => some (f k)) 300 transit_lc_prefix)) ∧
    ∀ (m : List Bool) (lc : List Value), m.length = lc.length →
      (maskSelect (maskNot m) lc ++ maskSelect m lc).Perm lc ∧
      (maskSelect (maskNot m) lc).length + (maskSelect m lc).length = lc.length :=
  ⟨fun _ => rfl, fun m lc h =>
    have hp := maskSelect_partition_perm m lc h
    ⟨hp, by simpa using hp.length_eq⟩⟩

/-- Witness for C9 on a concrete three-cadence light curve and mask. -/
theorem transit_mask_partition_and_frame_witness :
    ([true, false, true] : List Bool).length = ([10, 20, 30] : List Value).length ∧
    (maskSelect (maskNot [true, false, true]) [10, 20, 30] ++
      maskSelect [true, false, true] [10, 20, 30]).Perm ([10, 20, 30] : List Value) :=
  ⟨rfl, (transit_mask_partition_and_frame.2 [true, false, true] [10, 20, 30] rfl).1⟩

/-- Claim C10: every value computed by repository code is a deterministic
function of the downloaded archive data: the notebooks contain no call to
randomness, clock or environment-reading routines and no import of such a
module, and two executions over oracles that agree pointwise (identical
downloaded inputs and library behaviour) produce identical final states. -/
theorem deterministic_execution :
    (allNotebooks.all fun nb => !(nb.anyExpr isNondetCall)) = true ∧
    (allNotebooks.all fun nb => !(nb.anyS Stmt.isNondetImport)) = true ∧
    ∀ o₁ o₂ : Oracle, (∀ k, o₁ k = o₂ k) →
      allNotebooks.map (fun nb => runNotebook o₁ 300 nb)
      = allNotebooks.map (fun nb => runNotebook o₂ 300 nb) :=
  ⟨rfl, rfl, fun _ _ h => by rw [funext h]⟩

/-- Witness for C10 on two syntactically different, pointwise-equal
oracles. -/
theorem deterministic_execution_witness :
    (fun _ => some 0 : Oracle) 5 = (fun k => some (k * 0) : Oracle) 5 ∧
    allNotebooks.map (fun nb => runNotebook (fun _ => some 0) 300 nb)
    = allNotebooks.map (fun nb => runNotebook (fun k => some (k * 0)) 300 nb) :=
  ⟨by simp, deterministic_execution.2.2 (fun _ => some 0) (fun k => some (k * 0))
    (fun k => (congrArg some (Nat.mul_zero k)).symm)⟩

end MastNB
